import Mathlib

/-!
Verification of the voice-coach pipecat server (websocket_handler_native.py and
gemini_native_audio_service.py) against its natural-language specification.
The Python code is shallowly embedded: pure helpers become Lean functions,
stateful handlers become explicit state-passing functions, and the cooperative
asyncio scheduling of the registration/cleanup code becomes a small transition
system whose atomic steps are the code blocks between `await` suspension points.
-/

namespace VoiceCoach

/-! ## Python string primitives

These model the CPython string operations used by the server, restricted to the
character-level behaviour the code relies on.  They are written by structural
recursion on `List Char` so that every theorem below can be checked by kernel
reduction on concrete inputs. -/

/-- Python `str.strip()` with no argument: drop whitespace from both ends. -/
def pyStrip (s : String) : String :=
  ⟨((s.data.dropWhile Char.isWhitespace).reverse.dropWhile Char.isWhitespace).reverse⟩

/-- Python `str.lower()` (ASCII case folding, as used on the ASCII keyword sets). -/
def pyLower (s : String) : String :=
  ⟨s.data.map Char.toLower⟩

/-- Does `hay` start with `needle`? (helper for substring containment). -/
def listStartsWith : List Char → List Char → Bool
  | [], _ => true
  | _ :: _, [] => false
  | a :: as, b :: bs => a == b && listStartsWith as bs

/-- Substring containment on character lists (helper for Python `in`). -/
def listContainsSub (needle : List Char) : List Char → Bool
  | [] => needle.isEmpty
  | c :: t => listStartsWith needle (c :: t) || listContainsSub needle t

/-- Python `needle in hay` for strings: substring containment. -/
def pyIn (needle hay : String) : Bool :=
  listContainsSub needle.data hay.data

/-- Python truth-value test on a string: `""` is falsy, everything else truthy. -/
def pyFalsyStr (s : String) : Bool := s.data.isEmpty

/-- Python truth-value test on `data.get("audio")`: `None` and `""` are falsy. -/
def pyFalsyOptStr : Option String → Bool
  | none => true
  | some s => pyFalsyStr s

/-- The integer-valued entries of a Python dict (the only entries the modelled
code reads numerically; the handler stores `messageCount` as an int). -/
abbrev PyCtx := List (String × Nat)

/-- Python `dict.get(k)` returning `None` when the key is absent. -/
def pyDictGet (d : PyCtx) (k : String) : Option Nat :=
  match d.find? (fun e => e.1 == k) with
  | some e => some e.2
  | none => none

/-! ## Coaching response builder
(gemini_native_audio_service.py, `_calculate_score` lines 480-504,
`_extract_improvements` 506-532, `_extract_achievements` 534-556,
`_calculate_progress` 558-565.) -/

/-- `sales_keywords` list from `_calculate_score` (line 492). -/
def sales_keywords : List String :=
  ["value", "benefit", "solution", "help", "save", "improve", "better"]

/-- `positive_indicators` list from `_calculate_score` (line 497). -/
def positive_indicators : List String :=
  ["good", "excellent", "strong", "clear", "confident", "well"]

/-- The score accumulated by `_calculate_score` before the final clamp
(lines 483-499): baseline 75, +5 per transcript-length threshold,
+min(2*keywords, 10), +min(positives, 5). -/
def raw_score (transcript ai_response : String) : Nat :=
  let base := 75
  let s1 := if transcript.length > 50 then base + 5 else base
  let s2 := if transcript.length > 100 then s1 + 5 else s1
  let keyword_count :=
    (sales_keywords.filter (fun k => pyIn k (pyLower transcript))).length
  let s3 := s2 + min (keyword_count * 2) 10
  let positive_count :=
    (positive_indicators.filter (fun k => pyIn k (pyLower ai_response))).length
  s3 + min positive_count 5

/-- `_calculate_score` (line 501): `min(max(score, 60), 95)`. -/
def calculate_score (transcript ai_response : String) : Nat :=
  min (max (raw_score transcript ai_response) 60) 95

/-- The keyword-triggered improvement suggestions (lines 510-523), in source
order, before the default and the cap. -/
def improvements_raw (rl : String) : List String :=
  (if pyIn "pace" rl || pyIn "slow" rl || pyIn "fast" rl then
      ["Adjust your speaking pace for better clarity"] else [])
  ++ (if pyIn "confident" rl || pyIn "conviction" rl then
      ["Speak with more confidence and conviction"] else [])
  ++ (if pyIn "example" rl || pyIn "specific" rl then
      ["Add specific examples to strengthen your message"] else [])
  ++ (if pyIn "value" rl || pyIn "benefit" rl then
      ["Emphasize the key benefits and value proposition"] else [])

/-- Lines 525-530: generic defaults when no keyword matched. -/
def improvements_defaulted (rl : String) : List String :=
  if (improvements_raw rl).isEmpty then
    ["Practice varying your tone for emphasis",
     "Focus on clear articulation of key points"]
  else improvements_raw rl

/-- `_extract_improvements` (lines 506-532): keyword table, default, `[:3]` cap. -/
def extract_improvements (ai_response : String) : List String :=
  (improvements_defaulted (pyLower ai_response)).take 3

/-- The keyword-triggered achievements (lines 540-550). -/
def achievements_raw (rl : String) : List String :=
  (if pyIn "clear" rl then ["Clear and articulate delivery"] else [])
  ++ (if pyIn "confident" rl then ["Confident speaking style"] else [])
  ++ (if pyIn "good" rl || pyIn "well" rl then ["Well-structured message"] else [])
  ++ (if pyIn "engaging" rl then ["Engaging presentation style"] else [])

/-- Lines 552-554: generic default when no keyword matched. -/
def achievements_defaulted (rl : String) : List String :=
  if (achievements_raw rl).isEmpty then
    ["Voice message received and processed"]
  else achievements_raw rl

/-- `_extract_achievements` (lines 534-556): keyword table, default, `[:3]` cap. -/
def extract_achievements (ai_response : String) : List String :=
  (achievements_defaulted (pyLower ai_response)).take 3

/-- `_calculate_progress` (lines 558-565): `None` for a falsy context
(Python `None` or an empty dict), else `min(context.get("messageCount", 0) * 20, 100)`. -/
def calculate_progress (context : Option PyCtx) : Option Nat :=
  match context with
  | none => none
  | some entries =>
    if entries.isEmpty then none
    else some (min ((pyDictGet entries "messageCount").getD 0 * 20) 100)

/-! ## Upstream service connection state
(gemini_native_audio_service.py, `connect` lines 57-157,
`send_text_message` lines 198-244, `disconnect` lines 567-585.) -/

/-- The connection-relevant mutable fields of `GeminiNativeAudioService`:
`is_connected`, `use_http_fallback`, and whether `self.websocket` is not `None`. -/
structure ServiceState where
  is_connected : Bool
  use_http_fallback : Bool
  websocket : Bool
deriving DecidableEq

/-- Service state after `__init__` (lines 46-49). -/
def initialServiceState : ServiceState :=
  { is_connected := false, use_http_fallback := false, websocket := false }

/-- Outcome of the streaming (WebSocket) handshake attempted by `connect`
(lines 63-111): success means `setupComplete` was received; otherwise the
attempt raised either before the socket object was assigned
(`websockets.connect` itself raised, line 69) or after (setup send/recv
failed or the acknowledgment was not `setupComplete`, lines 97-111). -/
inductive WsHandshake where
  | setupOk
  | failBeforeSocket (e : String)
  | failAfterSocket (e : String)
deriving DecidableEq

/-- Outcome of the HTTP probe request issued in the fallback branch
(lines 140-153): an HTTP status code, or a raised exception. -/
inductive HttpProbe where
  | status (code : Nat)
  | raises (e : String)
deriving DecidableEq

/-- Lines 148-153 plus the outer `except` (155-157): `connect` returns `True`
exactly when the probe comes back with status 200; a non-200 status or a
raised exception yields `False`. -/
def probeOk : HttpProbe → Bool
  | .status code => code == 200
  | .raises _ => false

/-- `connect` (lines 57-157) as a function of the prior state and the two
transport outcomes, returning the Python return value and the new state.
On handshake success: `is_connected = True`, `use_http_fallback = False`
(lines 104-108).  On handshake failure: `use_http_fallback = True` and
`is_connected = True` are set (lines 118-119) BEFORE the probe runs, so the
state is the same whether the probe succeeds, fails, or raises. -/
def connect (s : ServiceState) (hs : WsHandshake) (probe : HttpProbe) :
    Bool × ServiceState :=
  match hs with
  | .setupOk =>
    (true, { is_connected := true, use_http_fallback := false, websocket := true })
  | .failBeforeSocket _ =>
    (probeOk probe,
     { is_connected := true, use_http_fallback := true, websocket := s.websocket })
  | .failAfterSocket _ =>
    (probeOk probe,
     { is_connected := true, use_http_fallback := true, websocket := true })

/-- Which of the three code paths of `send_text_message` a call takes. -/
inductive SendPath where
  | notConnectedError
  | httpPath
  | wsPath
deriving DecidableEq

/-- `send_text_message` (lines 198-244), reduced to its path selection and
state effect: the "Not connected" error branch (lines 200-202), the stateless
HTTP branch (lines 205-207), or the streaming branch (lines 209-238), whose
`except` clause (lines 240-244) sets `use_http_fallback = True` and processes
the current call over HTTP when the streaming send raises. -/
def send_text_message (s : ServiceState) (wsSendRaises : Bool) :
    SendPath × ServiceState :=
  if s.is_connected = false then (.notConnectedError, s)
  else if s.use_http_fallback || s.websocket = false then (.httpPath, s)
  else if wsSendRaises then (.httpPath, { s with use_http_fallback := true })
  else (.wsPath, s)

/-- `disconnect` (lines 567-585): closes the socket when one is present (both
branches of the `hasattr` check call `close`, lines 572-576), swallows any
close-time exception (lines 578-579, hence the result does not depend on
`_closeRaises`), then clears `is_connected` and `websocket` (lines 581-582).
Returns the new state and whether a close of the socket was attempted. -/
def disconnect (s : ServiceState) (_closeRaises : Bool) : ServiceState × Bool :=
  let closeAttempted := s.websocket
  ({ s with is_connected := false, websocket := false }, closeAttempted)

/-! ## HTTP fallback response parsing
(`_process_with_http`, gemini_native_audio_service.py lines 346-433.) -/

/-- One element of the candidate `parts` array; `text` may be absent. -/
structure GPart where
  text : Option String
deriving DecidableEq

/-- One candidate of the provider response body; `finishReason` may be absent
(Python `candidate.get('finishReason', 'STOP')`). -/
structure GCandidate where
  finishReason : Option String
  parts : List GPart
deriving DecidableEq

/-- The JSON body of a provider HTTP response. -/
structure GBody where
  candidates : List GCandidate
deriving DecidableEq

/-- Outcome of the `httpx` POST in `_process_with_http`: a status code with a
parsed body, or a raised exception (timeout, connection error, ...). -/
inductive HttpOutcome where
  | status (code : Nat) (body : GBody)
  | raises (e : String)
deriving DecidableEq

/-- What the upstream send functions return to their callers: a dict with a
`"text"` entry (and optionally concatenated audio bytes, present only on the
streaming path), or a dict with an `"error"` entry. -/
inductive UpstreamResult where
  | ok (text : String) (audioData : Option String)
  | err (msg : String)
deriving DecidableEq

/-- `_process_with_http` (lines 346-433): status 200 with a first candidate
whose first part holds non-empty stripped text yields that text (a MAX_TOKENS
finish reason is only logged, lines 406-407); an empty or missing first part
yields the "Empty response content" error with the finish reason (line 424);
no candidates yields "No candidates in response" (line 426); a non-200 status
yields "HTTP API error: code" (line 429); a raised exception yields its
message (lines 431-433). -/
def process_with_http (o : HttpOutcome) : UpstreamResult :=
  match o with
  | .raises e => .err e
  | .status code body =>
    if code = 200 then
      match body.candidates with
      | [] => .err "No candidates in response"
      | c :: _ =>
        let fr := c.finishReason.getD "STOP"
        match c.parts with
        | [] => .err ("Empty response content (finish reason: " ++ fr ++ ")")
        | p :: _ =>
          let ai := pyStrip (p.text.getD "")
          if pyFalsyStr ai then
            .err ("Empty response content (finish reason: " ++ fr ++ ")")
          else .ok ai none
    else .err ("HTTP API error: " ++ toString code)

/-! ## The voice_data handler
(websocket_handler_native.py, `_handle_voice_data` lines 133-217.) -/

/-- The fields of a `voice_data` message the handler reads:
`data.get("audio")` (absent, or a base64 string) and
`data.get("transcribedText", "")`. -/
structure VoiceMsg where
  audio : Option String
  transcribedText : String
deriving DecidableEq

/-- The outbound frames the modelled handlers emit (each is serialized with the
`{type, timestamp, data}` envelope by `_send_message`). -/
inductive Frame where
  | connectedF
  | processingStarted (transcript : String)
  | textFeedback (message : String) (score : Nat)
      (improvements : List String) (achievements : List String)
      (progressPercent : Option Nat)
  | audioResponse
  | streamResponse
  | sessionStarted
  | pong
  | errorF (message : String)
deriving DecidableEq

/-- Is a frame a `textFeedback` reply frame? -/
def isTextFeedback : Frame → Bool
  | .textFeedback _ _ _ _ _ => true
  | _ => false

/-- Is a frame an `error` frame? -/
def isErrorFrame : Frame → Bool
  | .errorF _ => true
  | _ => false

/-- What `process_audio_message` returns: a dict carrying an `"error"` entry,
or the structured feedback dict of lines 322-334. -/
inductive ProcResult where
  | errR (msg : String)
  | fb (message : String) (score : Nat)
      (improvements : List String) (achievements : List String)
      (progressPercent : Option Nat) (hasAudioResponse : Bool)
deriving DecidableEq

/-- `process_audio_message` (gemini_native_audio_service.py lines 302-344) as a
function of the transcript, the context, and the result of the upstream call it
makes (`_process_with_http` or `send_text_message`, chosen by
`use_http_fallback`; the `up` argument abstracts that call's result, and a
raised exception such as a base64 decode failure is folded into `.err` via the
`except` clause of lines 339-344).  An error result is propagated (lines
318-319); otherwise the feedback dict is built with the scoring heuristics
(lines 322-334). -/
def process_audio_message (transcript : String) (ctx : Option PyCtx)
    (up : UpstreamResult) : ProcResult :=
  match up with
  | .err e => .errR e
  | .ok text audioData =>
    .fb text (calculate_score transcript text)
      (extract_improvements text) (extract_achievements text)
      (calculate_progress ctx) audioData.isSome

/-- The observable outcome of one `_handle_voice_data` call: the frames sent to
the client, whether `total_audio_messages` was incremented (line 149), whether
`total_coaching_responses` was incremented (line 194), and whether any upstream
call was made. -/
structure VoiceOutcome where
  frames : List Frame
  audioInc : Bool
  coachInc : Bool
  upstreamCalled : Bool
deriving DecidableEq

/-- The missing-field check of lines 138-142:
`not data.get("transcribedText", "").strip() and not data.get("audio")`. -/
def missingInput (m : VoiceMsg) : Bool :=
  pyFalsyStr (pyStrip m.transcribedText) && pyFalsyOptStr m.audio

/-- `_handle_voice_data` (lines 133-217).  Missing both fields: one error frame
and an early return before any counter increment or upstream call (142-144).
Otherwise the audio counter is incremented (146-149) and `processingStarted`
sent (153-157).  With a truthy audio payload (line 168) the result of
`process_audio_message` is used: an `"error"` entry yields an
"AI processing failed" error frame and an early return before the coaching
counter (185-189); otherwise the coaching counter is incremented (191-194), a
`textFeedback` frame is sent from the response fields (196-208), and an
`audioResponse` frame follows when the response carries audio (211-213).
With a falsy audio payload the text-only branch (173-183) REBUILDS the
response dict — `message` falls back to "Thanks for your message!" when the
upstream dict has no `"text"` key, score is fixed at 75 — so the rebuilt dict
never contains an `"error"` key and the error check of line 186 never fires. -/
def handleVoiceData (m : VoiceMsg) (ctx : Option PyCtx) (up : UpstreamResult) :
    VoiceOutcome :=
  if missingInput m then
    { frames := [.errorF "No audio or transcription provided"],
      audioInc := false, coachInc := false, upstreamCalled := false }
  else if pyFalsyOptStr m.audio then
    let message := match up with
      | .ok t _ => t
      | .err _ => "Thanks for your message!"
    let hasAudio := match up with
      | .ok _ a => a.isSome
      | .err _ => false
    { frames := [.processingStarted (pyStrip m.transcribedText),
                 .textFeedback message 75
                   ["Continue practicing to improve clarity"]
                   ["Message successfully processed"] none]
                ++ (if hasAudio then [.audioResponse] else []),
      audioInc := true, coachInc := true, upstreamCalled := true }
  else
    match process_audio_message (pyStrip m.transcribedText) ctx up with
    | .errR e =>
      { frames := [.processingStarted (pyStrip m.transcribedText),
                   .errorF ("AI processing failed: " ++ e)],
        audioInc := true, coachInc := false, upstreamCalled := true }
    | .fb message score imp ach pp hasAud =>
      { frames := [.processingStarted (pyStrip m.transcribedText),
                   .textFeedback message score imp ach pp]
                  ++ (if hasAud then [.audioResponse] else []),
        audioInc := true, coachInc := true, upstreamCalled := true }

/-! ## The per-client message loop
(websocket_handler_native.py, `handle_client` lines 82-87 and
`_handle_message` lines 98-131.) -/

/-- One inbound item of a client's message stream, bundled with the environment
behaviour it elicits: non-JSON text, a ping, a session start, an unknown type,
a `voice_data` message (with the session's running audio-message count `k` used
to build the context, line 164, and the upstream call's result), or a message
whose handling raises an exception caught at line 129. -/
inductive InMsg where
  | malformed
  | ping
  | startPitch
  | unknownType (t : String)
  | voiceData (m : VoiceMsg) (k : Nat) (up : UpstreamResult)
  | raisesEx (e : String)
deriving DecidableEq

/-- `_handle_message` (lines 98-131): dispatch on the `type` field; non-JSON
input yields the "Invalid JSON format" error frame (126-128); an unknown type
yields its error frame (122-124); an exception raised while handling yields a
"Processing error" frame (129-131).  Every branch returns normally, so the
caller's `async for` loop (lines 82-87) continues with the next message. -/
def handleMessage : InMsg → List Frame
  | .malformed => [.errorF "Invalid JSON format"]
  | .ping => [.pong]
  | .startPitch => [.sessionStarted]
  | .unknownType t => [.errorF ("Unknown message type: " ++ t)]
  | .voiceData m k up => (handleVoiceData m (some [("messageCount", k)]) up).frames
  | .raisesEx e => [.errorF ("Processing error: " ++ e)]

/-- The `async for message in websocket` loop of `handle_client` (lines 82-87):
messages of one client are processed strictly in order and no processing
outcome breaks the loop. -/
def processLoop : List InMsg → List Frame
  | [] => []
  | msg :: rest => handleMessage msg ++ processLoop rest

/-! ## Upstream connect/disconnect lifecycle under cooperative scheduling
(websocket_handler_native.py, `handle_client` lines 39-96 and
`_cleanup_client` lines 311-338.)

asyncio runs one `handle_client` task per client; a task can only be
interrupted at an `await`.  The relevant suspension points are the
`await self.gemini_service.connect()` of line 63 and the
`await self.gemini_service.disconnect()` of line 330, so the code between
them forms the atomic blocks below. -/

/-- The shared handler state plus instrumentation: how many tasks sit at each
suspension point, and how many times `gemini_service.connect()` /
`gemini_service.disconnect()` have been invoked. -/
structure HandlerState where
  gemini_connected : Bool
  active_clients : Nat
  awaiting_connect : Nat
  serving : Nat
  awaiting_disconnect : Nat
  connect_calls : Nat
  disconnect_calls : Nat
deriving DecidableEq

/-- Handler state after `__init__` (lines 24-37). -/
def initialHandlerState : HandlerState :=
  { gemini_connected := false, active_clients := 0, awaiting_connect := 0,
    serving := 0, awaiting_disconnect := 0, connect_calls := 0,
    disconnect_calls := 0 }

/-- The cleanup block of `_cleanup_client` (lines 313-330) up to its await:
remove the client from `active_clients` (315-316), then, when no client
remains and `gemini_connected` is set (line 328), invoke
`gemini_service.disconnect()` — the task then suspends at line 330;
`gemini_connected` is only reset at line 331, after the await. -/
def cleanupCore (s : HandlerState) : HandlerState :=
  let s := { s with active_clients := s.active_clients - 1 }
  if s.active_clients = 0 && s.gemini_connected then
    { s with disconnect_calls := s.disconnect_calls + 1,
             awaiting_disconnect := s.awaiting_disconnect + 1 }
  else s

/-- The registration block of `handle_client` (lines 41-63) up to its await:
add the client to `active_clients` (line 45), then check `gemini_connected`
(line 61): if unset, invoke `gemini_service.connect()` and suspend at line 63;
if set, reuse the existing connection (lines 69-70) and enter the message
loop.  `gemini_connected` is only set at line 67, after the await resolves. -/
def registerStep (s : HandlerState) : HandlerState :=
  let s := { s with active_clients := s.active_clients + 1 }
  if s.gemini_connected then
    { s with serving := s.serving + 1 }
  else
    { s with awaiting_connect := s.awaiting_connect + 1,
             connect_calls := s.connect_calls + 1 }

/-- Resumption at line 64 for one task suspended in `connect()`: on `True` the
task sets `gemini_connected` (line 67) and enters the message loop; on `False`
it sends an error and returns (lines 64-66), so its `finally` block runs the
cleanup (line 96). -/
def resumeConnect (ok : Bool) (s : HandlerState) : HandlerState :=
  if s.awaiting_connect = 0 then s
  else
    let s := { s with awaiting_connect := s.awaiting_connect - 1 }
    if ok then { s with gemini_connected := true, serving := s.serving + 1 }
    else cleanupCore s

/-- A serving client's socket closes and its cleanup block runs (lines 89-96
into 311-330). -/
def clientLeaves (s : HandlerState) : HandlerState :=
  if s.serving = 0 then s
  else cleanupCore { s with serving := s.serving - 1 }

/-- Resumption at line 331 for one task suspended in `disconnect()`:
`gemini_connected` is reset. -/
def resumeDisconnect (s : HandlerState) : HandlerState :=
  if s.awaiting_disconnect = 0 then s
  else { s with awaiting_disconnect := s.awaiting_disconnect - 1,
                gemini_connected := false }

/-- One scheduler event: which atomic block runs next. -/
inductive HandlerEvent where
  | register
  | connectOk
  | connectFail
  | leave
  | disconnectDone
deriving DecidableEq

/-- Dispatch one scheduler event. -/
def handlerStep : HandlerEvent → HandlerState → HandlerState
  | .register => registerStep
  | .connectOk => resumeConnect true
  | .connectFail => resumeConnect false
  | .leave => clientLeaves
  | .disconnectDone => resumeDisconnect

/-- Run a schedule of events from the freshly initialized handler. -/
def runHandler (events : List HandlerEvent) : HandlerState :=
  events.foldl (fun s e => handlerStep e s) initialHandlerState

/-! ## The server-wide counter invariant
(websocket_handler_native.py: `total_audio_messages` is incremented only at
line 149 and `total_coaching_responses` only at line 194, both inside
`_handle_voice_data`; no other code in the repository writes either counter.)

Between the two increments the handling task can suspend (`_send_message` and
the upstream calls await), so other handlings interleave; the transition
system tracks how many handlings sit in that window. -/

/-- Global counters plus the number of voice_data handlings that have passed
the line-149 increment but not yet reached line 194 or an early return. -/
structure Sys10 where
  audio : Nat
  coach : Nat
  inFlight : Nat
deriving DecidableEq

/-- The atomic counter events of `_handle_voice_data`: the line-149 increment
(entering the window), the line-194 increment (leaving it — reachable only
from inside the window, i.e. after line 149 of the same handling), and an
early return from inside the window (error branch 185-189 or a raised
exception caught at 215-217), which leaves the coaching counter untouched. -/
inductive Step10 : Sys10 → Sys10 → Prop where
  | incAudio (a c p : Nat) : Step10 ⟨a, c, p⟩ ⟨a + 1, c, p + 1⟩
  | incCoach (a c p : Nat) : Step10 ⟨a, c, p + 1⟩ ⟨a, c + 1, p⟩
  | abortHandling (a c p : Nat) : Step10 ⟨a, c, p + 1⟩ ⟨a, c, p⟩

/-- States reachable from the freshly initialized server stats (lines 29-36). -/
inductive Reach10 : Sys10 → Prop where
  | init : Reach10 ⟨0, 0, 0⟩
  | step {s t : Sys10} : Reach10 s → Step10 s t → Reach10 t

/-! ## Helper lemmas -/

theorem length_take3_of_ne_nil {α : Type} (l : List α) (h : l ≠ []) :
    1 ≤ (l.take 3).length ∧ (l.take 3).length ≤ 3 := by
  cases l with
  | nil => exact absurd rfl h
  | cons a t =>
    constructor
    · simp [List.length_take]
    · simp [List.length_take]

theorem improvements_defaulted_ne_nil (rl : String) :
    improvements_defaulted rl ≠ [] := by
  unfold improvements_defaulted
  split
  · simp
  · next h =>
    intro hnil
    exact h (by simp [hnil])

theorem achievements_defaulted_ne_nil (rl : String) :
    achievements_defaulted rl ≠ [] := by
  unfold achievements_defaulted
  split
  · simp
  · next h =>
    intro hnil
    exact h (by simp [hnil])

theorem processLoop_append (xs ys : List InMsg) :
    processLoop (xs ++ ys) = processLoop xs ++ processLoop ys := by
  induction xs with
  | nil => simp [processLoop]
  | cons m rest ih => simp [processLoop, ih]

theorem reach10_strength {s : Sys10} (h : Reach10 s) :
    s.coach + s.inFlight ≤ s.audio := by
  induction h with
  | init => simp
  | step _ hstep ih =>
    cases hstep with
    | incAudio a c p => simp_all; omega
    | incCoach a c p => simp_all; omega
    | abortHandling a c p => simp_all; omega

/-! ## Claim theorems -/

/-- C4: for every transcript and model reply, the coaching score is an integer
in [60, 95] (baseline 75 with capped increments, clamped by
`min(max(score, 60), 95)`), and the improvements and achievements lists each
hold between 1 and 3 entries (generic defaults fill in when no keyword
matches). -/
theorem c4_feedback_bounds (transcript reply : String) :
    60 ≤ calculate_score transcript reply ∧
    calculate_score transcript reply ≤ 95 ∧
    1 ≤ (extract_improvements reply).length ∧
    (extract_improvements reply).length ≤ 3 ∧
    1 ≤ (extract_achievements reply).length ∧
    (extract_achievements reply).length ≤ 3 := by
  have hs : 60 ≤ calculate_score transcript reply ∧
      calculate_score transcript reply ≤ 95 := by
    unfold calculate_score
    omega
  have hi := length_take3_of_ne_nil (improvements_defaulted (pyLower reply))
    (improvements_defaulted_ne_nil (pyLower reply))
  have ha := length_take3_of_ne_nil (achievements_defaulted (pyLower reply))
    (achievements_defaulted_ne_nil (pyLower reply))
  exact ⟨hs.1, hs.2, hi.1, hi.2, ha.1, ha.2⟩

/-- C5: a processing error never closes the client connection: malformed
(non-JSON) input, an unknown message type, and an exception raised while
handling one message each produce a single error frame for that client, every
handler branch returns normally, and the message loop goes on processing —
in particular a ping sent after any message sequence still yields a pong. -/
theorem c5_loop_survives_errors (msgs : List InMsg) (t e : String) :
    handleMessage .malformed = [.errorF "Invalid JSON format"] ∧
    handleMessage (.unknownType t) = [.errorF ("Unknown message type: " ++ t)] ∧
    handleMessage (.raisesEx e) = [.errorF ("Processing error: " ++ e)] ∧
    processLoop (msgs ++ [.ping]) = processLoop msgs ++ [.pong] := by
  refine ⟨rfl, rfl, rfl, ?_⟩
  rw [processLoop_append]
  rfl

/-- C7: when the context dict carries a `messageCount` entry, the computed
progress percent is `min(messageCount * 20, 100)`; with no context the
progress percent is absent. -/
theorem c7_progress_percent (entries : PyCtx) (mc : Nat)
    (h : pyDictGet entries "messageCount" = some mc) :
    calculate_progress (some entries) = some (min (mc * 20) 100) ∧
    calculate_progress none = none := by
  refine ⟨?_, rfl⟩
  cases entries with
  | nil => simp [pyDictGet] at h
  | cons e rest =>
    simp only [calculate_progress, List.isEmpty_cons, if_false, h, Option.getD_some]
    rfl

/-- C7 witness: a context with `messageCount = 7` yields progress 100. -/
theorem c7_progress_percent_witness :
    calculate_progress (some [("messageCount", 7)]) = some (min (7 * 20) 100) ∧
    calculate_progress none = none :=
  c7_progress_percent [("messageCount", 7)] 7 (by rfl)

/-- C8: `disconnect` is idempotent and total: one call leaves
`is_connected = false` with the websocket handle cleared, a second call
changes nothing and attempts no further close, a close of the socket is
attempted exactly when one is open, and the result never depends on whether
the underlying close raises (the exception is swallowed), so `disconnect`
never raises. -/
theorem c8_disconnect_idempotent (s : ServiceState) (b b' : Bool) :
    (disconnect s b).1.is_connected = false ∧
    (disconnect s b).1.websocket = false ∧
    (disconnect s b).2 = s.websocket ∧
    disconnect (disconnect s b).1 b' = ((disconnect s b).1, false) ∧
    disconnect s b = disconnect s b' := by
  refine ⟨rfl, rfl, rfl, ?_, rfl⟩
  simp [disconnect]

/-- C3: when the streaming handshake fails (in any way), `connect` ends in the
fallback-connected state (`use_http_fallback = true`) and returns success
exactly when the HTTP probe answers with status 200; from that state every
subsequent send-for-coaching call takes the stateless HTTP path and leaves the
state unchanged, so the streaming transport is never retried without a fresh
`connect` call. -/
theorem c3_fallback_correctness (s : ServiceState) (hs : WsHandshake)
    (probe : HttpProbe) (h : hs ≠ WsHandshake.setupOk) :
    (connect s hs probe).2.use_http_fallback = true ∧
    ((connect s hs probe).1 = true ↔ probe = HttpProbe.status 200) ∧
    (∀ b, send_text_message (connect s hs probe).2 b =
      (SendPath.httpPath, (connect s hs probe).2)) := by
  cases hs with
  | setupOk => exact absurd rfl h
  | failBeforeSocket e =>
    refine ⟨rfl, ?_, fun b => rfl⟩
    cases probe with
    | status code => simp [connect, probeOk]
    | raises e' => simp [connect, probeOk]
  | failAfterSocket e =>
    refine ⟨rfl, ?_, fun b => rfl⟩
    cases probe with
    | status code => simp [connect, probeOk]
    | raises e' => simp [connect, probeOk]

/-- C3 witness: with a failing handshake and a probe answering 200, `connect`
lands in fallback mode, reports success, and sends go over HTTP. -/
theorem c3_fallback_correctness_witness :
    (connect initialServiceState (.failBeforeSocket "refused") (.status 200)).2.use_http_fallback = true ∧
    ((connect initialServiceState (.failBeforeSocket "refused") (.status 200)).1 = true ↔
      HttpProbe.status 200 = HttpProbe.status 200) ∧
    (∀ b, send_text_message
        (connect initialServiceState (.failBeforeSocket "refused") (.status 200)).2 b =
      (SendPath.httpPath,
       (connect initialServiceState (.failBeforeSocket "refused") (.status 200)).2)) :=
  c3_fallback_correctness initialServiceState (.failBeforeSocket "refused")
    (.status 200) (by simp)

/-- C9: when both transports fail — the handshake does not complete and the
HTTP probe does not return status 200 — `connect` returns `false` yet leaves
`is_connected = true` and `use_http_fallback = true`, so a later
`send_text_message` skips the "Not connected" error branch and issues an HTTP
request despite `connect` having reported failure. -/
theorem c9_failed_connect_leaves_connected (s : ServiceState) (hs : WsHandshake)
    (probe : HttpProbe) (h : hs ≠ WsHandshake.setupOk)
    (hp : probe ≠ HttpProbe.status 200) :
    (connect s hs probe).1 = false ∧
    (connect s hs probe).2.is_connected = true ∧
    (connect s hs probe).2.use_http_fallback = true ∧
    (∀ b, (send_text_message (connect s hs probe).2 b).1 = SendPath.httpPath) := by
  cases hs with
  | setupOk => exact absurd rfl h
  | failBeforeSocket e =>
    refine ⟨?_, rfl, rfl, fun b => rfl⟩
    cases probe with
    | status code =>
      simp only [connect, probeOk, beq_eq_false_iff_ne, ne_eq]
      intro hc
      exact hp (by rw [hc])
    | raises e' => rfl
  | failAfterSocket e =>
    refine ⟨?_, rfl, rfl, fun b => rfl⟩
    cases probe with
    | status code =>
      simp only [connect, probeOk, beq_eq_false_iff_ne, ne_eq]
      intro hc
      exact hp (by rw [hc])
    | raises e' => rfl

/-- C9 witness: a failing handshake followed by a 503 probe leaves the service
claiming to be connected in fallback mode while `connect` returned false. -/
theorem c9_failed_connect_leaves_connected_witness :
    (connect initialServiceState (.failAfterSocket "setup failed") (.status 503)).1 = false ∧
    (connect initialServiceState (.failAfterSocket "setup failed") (.status 503)).2.is_connected = true ∧
    (connect initialServiceState (.failAfterSocket "setup failed") (.status 503)).2.use_http_fallback = true ∧
    (∀ b, (send_text_message
        (connect initialServiceState (.failAfterSocket "setup failed") (.status 503)).2 b).1 =
      SendPath.httpPath) :=
  c9_failed_connect_leaves_connected initialServiceState (.failAfterSocket "setup failed")
    (.status 503) (by simp) (by simp)

/-- C6: a `voice_data` message carrying neither an audio payload nor a
transcript string yields exactly one error frame,
"No audio or transcription provided", and nothing else: no
`processingStarted` acknowledgment, no upstream call, no `textFeedback`
frame, and neither counter is incremented. -/
theorem c6_missing_input_short_circuit (m : VoiceMsg) (ctx : Option PyCtx)
    (up : UpstreamResult) (h : missingInput m = true) :
    handleVoiceData m ctx up =
      { frames := [.errorF "No audio or transcription provided"],
        audioInc := false, coachInc := false, upstreamCalled := false } := by
  unfold handleVoiceData
  rw [h]
  rfl

/-- C6 witness: a `voice_data` message with no audio and a whitespace-only
transcript takes the missing-input branch. -/
theorem c6_missing_input_short_circuit_witness :
    missingInput ⟨none, "   "⟩ = true ∧
    handleVoiceData ⟨none, "   "⟩ none (.err "unused") =
      { frames := [.errorF "No audio or transcription provided"],
        audioInc := false, coachInc := false, upstreamCalled := false } :=
  ⟨by rfl, c6_missing_input_short_circuit ⟨none, "   "⟩ none (.err "unused") (by rfl)⟩

/-- C2 counterexample: the claim fails on the code.  A `voice_data` message
that passes the missing-field check and carries an audio payload, hitting a
rate-limited upstream (HTTP 429), produces a `processingStarted`
acknowledgment followed by a bare error frame and NO `textFeedback` reply
frame — `_handle_voice_data` (lines 186-189) sends
"AI processing failed: ..." and returns without synthesizing a placeholder
reply. -/
theorem c2_counterexample :
    missingInput ⟨some "QUJDRA==", "hello team"⟩ = false ∧
    process_with_http (.status 429 ⟨[]⟩) = .err "HTTP API error: 429" ∧
    (handleVoiceData ⟨some "QUJDRA==", "hello team"⟩ none
        (process_with_http (.status 429 ⟨[]⟩))).frames =
      [.processingStarted "hello team",
       .errorF "AI processing failed: HTTP API error: 429"] ∧
    ((handleVoiceData ⟨some "QUJDRA==", "hello team"⟩ none
        (process_with_http (.status 429 ⟨[]⟩))).frames.any isTextFeedback) = false := by
  refine ⟨rfl, ?_, ?_, ?_⟩ <;> rfl

/-- C2 (amended): for a `voice_data` message that passes the missing-field
check, the reply behaviour splits on the audio payload.  Without audio
(transcript-only), the handler rebuilds the response dict, so the client
always receives a `textFeedback` frame — upstream failures are mapped to the
placeholder "Thanks for your message!" with score 75 and are never surfaced
as a bare failure.  With audio, an upstream failure is surfaced as an
"AI processing failed" error frame with no `textFeedback`; only a successful
upstream reply (including a MAX_TOKENS-truncated one that still carries
text) yields a `textFeedback` frame. -/
theorem c2_reply_frame_policy (m : VoiceMsg) (ctx : Option PyCtx)
    (up : UpstreamResult) (h : missingInput m = false) :
    (pyFalsyOptStr m.audio = true →
      (handleVoiceData m ctx up).coachInc = true ∧
      ((handleVoiceData m ctx up).frames.any isTextFeedback) = true ∧
      (∀ e, up = .err e →
        (handleVoiceData m ctx up).frames.get? 1 =
          some (.textFeedback "Thanks for your message!" 75
            ["Continue practicing to improve clarity"]
            ["Message successfully processed"] none))) ∧
    (pyFalsyOptStr m.audio = false →
      (∀ e, up = .err e →
        (handleVoiceData m ctx up).frames =
          [.processingStarted (pyStrip m.transcribedText),
           .errorF ("AI processing failed: " ++ e)] ∧
        ((handleVoiceData m ctx up).frames.any isTextFeedback) = false) ∧
      (∀ t a, up = .ok t a →
        ((handleVoiceData m ctx up).frames.any isTextFeedback) = true)) := by
  constructor
  · intro hb
    cases up with
    | ok t a =>
      refine ⟨?_, ?_, ?_⟩
      · simp [handleVoiceData, h, hb]
      · simp [handleVoiceData, h, hb, isTextFeedback]
      · intro e he
        exact absurd he (by simp)
    | err e =>
      refine ⟨?_, ?_, ?_⟩
      · simp [handleVoiceData, h, hb]
      · simp [handleVoiceData, h, hb, isTextFeedback]
      · intro e' he
        injection he with he'
        subst he'
        simp [handleVoiceData, h, hb]
  · intro hb
    constructor
    · intro e he
      subst he
      constructor
      · simp [handleVoiceData, h, hb, process_audio_message]
      · simp [handleVoiceData, h, hb, process_audio_message, isTextFeedback]
    · intro t a he
      subst he
      simp [handleVoiceData, h, hb, process_audio_message, isTextFeedback]

/-- C2 (amended) witness: a transcript-only message whose upstream call times
out still gets a `textFeedback` reply with the placeholder message. -/
theorem c2_reply_frame_policy_witness :
    (handleVoiceData ⟨none, "hi"⟩ none (.err "Response timeout")).coachInc = true ∧
    ((handleVoiceData ⟨none, "hi"⟩ none (.err "Response timeout")).frames.any isTextFeedback) = true ∧
    (handleVoiceData ⟨none, "hi"⟩ none (.err "Response timeout")).frames.get? 1 =
      some (.textFeedback "Thanks for your message!" 75
        ["Continue practicing to improve clarity"]
        ["Message successfully processed"] none) := by
  have h := (c2_reply_frame_policy ⟨none, "hi"⟩ none (.err "Response timeout")
    (by rfl)).1 (by rfl)
  exact ⟨h.1, h.2.1, h.2.2 "Response timeout" rfl⟩

/-- C1: evaluation of the lifecycle model at the failing schedule.  Two
clients whose registration blocks both run before either `connect()` call
resolves (a legal asyncio interleaving, since `gemini_connected` is only set
at line 67, after the `await` of line 63) invoke `gemini_service.connect()`
twice — the claim says exactly once for N concurrent registrations.  The
sequential schedule the code was written for (each registration completing
before the next begins) does invoke `connect()` exactly once and, when the
last client leaves, `disconnect()` exactly once. -/
theorem c1_connect_race :
    (runHandler [.register, .register]).connect_calls = 2 ∧
    (runHandler [.register, .connectOk, .register, .leave, .leave,
      .disconnectDone]).connect_calls = 1 ∧
    (runHandler [.register, .connectOk, .register, .leave, .leave,
      .disconnectDone]).disconnect_calls = 1 ∧
    (runHandler [.register, .connectOk, .register, .leave, .leave,
      .disconnectDone]).gemini_connected = false := by
  refine ⟨?_, ?_, ?_, ?_⟩ <;> rfl

/-- C10: at every reachable point of every execution,
`total_coaching_responses` is at most `total_audio_messages`: within each
voice_data handling the audio counter (line 149) is incremented before the
coaching counter (line 194) can be, each at most once — as witnessed on the
handler function, whose outcome never sets `coachInc` without `audioInc` —
and no other code touches either counter. -/
theorem c10_counter_invariant :
    (∀ s : Sys10, Reach10 s → s.coach ≤ s.audio) ∧
    (∀ (m : VoiceMsg) (ctx : Option PyCtx) (up : UpstreamResult),
      (handleVoiceData m ctx up).coachInc = true →
      (handleVoiceData m ctx up).audioInc = true) := by
  constructor
  · intro s h
    have := reach10_strength h
    omega
  · intro m ctx up h
    revert h
    unfold handleVoiceData
    split
    · exact fun h => h
    · split
      · exact fun _ => rfl
      · split <;> exact fun _ => rfl

/-- C10 witness: the state after one completed voice_data handling (audio
increment then coaching increment) is reachable and satisfies the invariant;
and a concrete handling with `coachInc` set also has `audioInc` set. -/
theorem c10_counter_invariant_witness :
    (⟨1, 1, 0⟩ : Sys10).coach ≤ (⟨1, 1, 0⟩ : Sys10).audio ∧
    (handleVoiceData ⟨none, "hi"⟩ none (.err "x")).audioInc = true :=
  ⟨c10_counter_invariant.1 ⟨1, 1, 0⟩
      (.step (.step .init (.incAudio 0 0 0)) (.incCoach 1 0 0)),
   c10_counter_invariant.2 ⟨none, "hi"⟩ none (.err "x") (by rfl)⟩

end VoiceCoach
